import Mathlib

/-
Verification of the two-wheel Pico robot drive controllers
(`two_wheel_front_drive.py` and `two_wheel_rear_drive.py`).

Both files define the same low-level motor layer (`set_motor`, `move`,
`stop`, construction), with identical bodies; it is embedded once below.
Speeds are Python integers, embedded as ℤ.  `turn_ratio` is a Python
float; the reference values (0.5, 0.3, …) and all products appearing in
the claims are computed exactly by IEEE doubles, so the ratio is embedded
as ℚ and Python's `int(x)` as truncation toward zero.

PWM output state is the duty value last written to each of the four
output lines (left/right × forward/reverse); `duty_u16(v)` is embedded as
a functional update of that state.  PWM frequency configuration has no
observable effect on duty state and is not modelled.
-/

namespace PicoRobot

/-- The four PWM output lines of the robot: the duty value currently
driven on `left_fwd` (GPIO 0), `left_rev` (GPIO 1), `right_fwd` (GPIO 2)
and `right_rev` (GPIO 3). -/
structure RobotState where
  left_fwd : ℕ
  left_rev : ℕ
  right_fwd : ℕ
  right_rev : ℕ
deriving DecidableEq, Repr

/-- Source: `self.max_speed = 65535  # 16-bit PWM resolution` (line 28 of both files). -/
def max_speed : ℕ := 65535

/-- Source line 33 of both files: `speed = max(-100, min(100, speed))  # Clamp speed`. -/
def clampSpeed (speed : ℤ) : ℤ := max (-100) (min 100 speed)

/-- Source line 34 of both files: `duty = int(abs(speed) * self.max_speed / 100)`.
Python's `/` is float division here, but the numerator is at most
6 553 500 ≪ 2⁵³ and every exact quotient is at least 1/100 away from the
next integer, far beyond the double rounding error, so `int(...)` equals
the floor of the exact quotient: natural floor division. -/
def dutyOf (speed : ℤ) : ℕ := speed.natAbs * max_speed / 100

/-- Python `int(x)` on a real value: truncation toward zero. -/
def pyTrunc (q : ℚ) : ℤ := if 0 ≤ q then ⌊q⌋ else ⌈q⌉

/-- Source `set_motor(self, fwd_pin, rev_pin, speed)` (lines 31–44 of both files),
as the pair of duty values written to `(fwd_pin, rev_pin)`:
clamp the speed, compute the duty from the clamped value, then drive
exactly one side with `duty` and the other with 0 (both with 0 when the
clamped speed is zero).  Both lines are written on every call. -/
def set_motor (speed : ℤ) : ℕ × ℕ :=
  let s := clampSpeed speed
  let duty := dutyOf s
  if s > 0 then (duty, 0)
  else if s < 0 then (0, duty)
  else (0, 0)

/-- Source `move(self, left_speed, right_speed)` (lines 46–53 of both files):
`set_motor` on the left pin pair, then on the right pin pair.  All four
output lines are overwritten, so the prior state is discarded. -/
def move (st : RobotState) (left_speed right_speed : ℤ) : RobotState :=
  let l := set_motor left_speed
  let r := set_motor right_speed
  { left_fwd := l.1, left_rev := l.2, right_fwd := r.1, right_rev := r.2 }

/-- Source `stop(self)` (front lines 105–108, rear lines 126–129):
`for motor in self.motors: motor.duty_u16(0)` — writes duty 0 directly to
all four output lines, bypassing `set_motor` entirely. -/
def stop (st : RobotState) : RobotState :=
  { left_fwd := 0, left_rev := 0, right_fwd := 0, right_rev := 0 }

/-- Source `__init__(self)` (lines 9–29 of both files): acquires the four PWM
channels (whatever duty state `hw` the hardware lines are in), configures
their frequency (no effect on duty state), and ends with `self.stop()`. -/
def construct (hw : RobotState) : RobotState := stop hw

namespace FrontDrive

/-- Source `forward(self, speed=50)` → `self.move(speed, speed)` (lines 55–57). -/
def forward (st : RobotState) (speed : ℤ := 50) : RobotState :=
  move st speed speed

/-- Source `backward(self, speed=50)` → `self.move(-speed, -speed)` (lines 59–61). -/
def backward (st : RobotState) (speed : ℤ := 50) : RobotState :=
  move st (-speed) (-speed)

/-- Source `turn_left(self, speed=50)` → `self.move(0, speed)` (lines 63–65). -/
def turn_left (st : RobotState) (speed : ℤ := 50) : RobotState :=
  move st 0 speed

/-- Source `turn_right(self, speed=50)` → `self.move(speed, 0)` (lines 67–69). -/
def turn_right (st : RobotState) (speed : ℤ := 50) : RobotState :=
  move st speed 0

/-- Source `spin_left(self, speed=50)` → `self.move(-speed, speed)` (lines 71–73). -/
def spin_left (st : RobotState) (speed : ℤ := 50) : RobotState :=
  move st (-speed) speed

/-- Source `spin_right(self, speed=50)` → `self.move(speed, -speed)` (lines 75–77). -/
def spin_right (st : RobotState) (speed : ℤ := 50) : RobotState :=
  move st speed (-speed)

/-- Source `arc_left(self, speed=50, turn_ratio=0.5)` (lines 79–86):
`right_speed = speed; left_speed = int(speed * turn_ratio);
self.move(left_speed, right_speed)`. -/
def arc_left (st : RobotState) (speed : ℤ := 50) (turn_ratio : ℚ := 1/2) : RobotState :=
  let right_speed := speed
  let left_speed := pyTrunc ((speed : ℚ) * turn_ratio)
  move st left_speed right_speed

/-- Source `arc_right(self, speed=50, turn_ratio=0.5)` (lines 88–95):
`left_speed = speed; right_speed = int(speed * turn_ratio);
self.move(left_speed, right_speed)`. -/
def arc_right (st : RobotState) (speed : ℤ := 50) (turn_ratio : ℚ := 1/2) : RobotState :=
  let left_speed := speed
  let right_speed := pyTrunc ((speed : ℚ) * turn_ratio)
  move st left_speed right_speed

/-- Source `pivot_left(self, speed=50)` → `self.move(0, speed)` (lines 97–99). -/
def pivot_left (st : RobotState) (speed : ℤ := 50) : RobotState :=
  move st 0 speed

/-- Source `pivot_right(self, speed=50)` → `self.move(speed, 0)` (lines 101–103). -/
def pivot_right (st : RobotState) (speed : ℤ := 50) : RobotState :=
  move st speed 0

end FrontDrive

namespace RearDrive

/-- Source `forward(self, speed=50)` → `self.move(speed, speed)` (lines 55–57). -/
def forward (st : RobotState) (speed : ℤ := 50) : RobotState :=
  move st speed speed

/-- Source `backward(self, speed=50)` → `self.move(-speed, -speed)` (lines 59–64). -/
def backward (st : RobotState) (speed : ℤ := 50) : RobotState :=
  move st (-speed) (-speed)

/-- Source `turn_left_forward(self, speed=50)` → `self.move(0, speed)` (lines 66–68). -/
def turn_left_forward (st : RobotState) (speed : ℤ := 50) : RobotState :=
  move st 0 speed

/-- Source `turn_right_forward(self, speed=50)` → `self.move(speed, 0)` (lines 70–72). -/
def turn_right_forward (st : RobotState) (speed : ℤ := 50) : RobotState :=
  move st speed 0

/-- Source `turn_left_reverse(self, speed=50)` → `self.move(0, -speed)` (lines 74–76). -/
def turn_left_reverse (st : RobotState) (speed : ℤ := 50) : RobotState :=
  move st 0 (-speed)

/-- Source `turn_right_reverse(self, speed=50)` → `self.move(-speed, 0)` (lines 78–80). -/
def turn_right_reverse (st : RobotState) (speed : ℤ := 50) : RobotState :=
  move st (-speed) 0

/-- Source `spin_left(self, speed=50)` → `self.move(-speed, speed)` (lines 82–84). -/
def spin_left (st : RobotState) (speed : ℤ := 50) : RobotState :=
  move st (-speed) speed

/-- Source `spin_right(self, speed=50)` → `self.move(speed, -speed)` (lines 86–88). -/
def spin_right (st : RobotState) (speed : ℤ := 50) : RobotState :=
  move st speed (-speed)

/-- Source `arc_left(self, speed=50, turn_ratio=0.5)` (lines 90–97):
`right_speed = speed; left_speed = int(speed * turn_ratio);
self.move(left_speed, right_speed)`. -/
def arc_left (st : RobotState) (speed : ℤ := 50) (turn_ratio : ℚ := 1/2) : RobotState :=
  let right_speed := speed
  let left_speed := pyTrunc ((speed : ℚ) * turn_ratio)
  move st left_speed right_speed

/-- Source `arc_right(self, speed=50, turn_ratio=0.5)` (lines 99–106):
`left_speed = speed; right_speed = int(speed * turn_ratio);
self.move(left_speed, right_speed)`. -/
def arc_right (st : RobotState) (speed : ℤ := 50) (turn_ratio : ℚ := 1/2) : RobotState :=
  let left_speed := speed
  let right_speed := pyTrunc ((speed : ℚ) * turn_ratio)
  move st left_speed right_speed

/-- Source `arc_left_reverse(self, speed=50, turn_ratio=0.5)` (lines 108–115):
`right_speed = -speed; left_speed = int(-speed * turn_ratio);
self.move(left_speed, right_speed)`. -/
def arc_left_reverse (st : RobotState) (speed : ℤ := 50) (turn_ratio : ℚ := 1/2) : RobotState :=
  let right_speed := -speed
  let left_speed := pyTrunc (((-speed : ℤ) : ℚ) * turn_ratio)
  move st left_speed right_speed

/-- Source `arc_right_reverse(self, speed=50, turn_ratio=0.5)` (lines 117–124):
`left_speed = -speed; right_speed = int(-speed * turn_ratio);
self.move(left_speed, right_speed)`. -/
def arc_right_reverse (st : RobotState) (speed : ℤ := 50) (turn_ratio : ℚ := 1/2) : RobotState :=
  let left_speed := -speed
  let right_speed := pyTrunc (((-speed : ℤ) : ℚ) * turn_ratio)
  move st left_speed right_speed

end RearDrive

/-- All four output lines carry a legal 16-bit duty value and, on each
motor, at most one of the forward/reverse lines is energized. -/
def outputsSafe (st : RobotState) : Prop :=
  st.left_fwd ≤ 65535 ∧ st.left_rev ≤ 65535 ∧
  st.right_fwd ≤ 65535 ∧ st.right_rev ≤ 65535 ∧
  (st.left_fwd = 0 ∨ st.left_rev = 0) ∧
  (st.right_fwd = 0 ∨ st.right_rev = 0)

/- ------------------------------------------------------------------ -/
/- Helper lemmas -/

theorem clampSpeed_mem (s : ℤ) : -100 ≤ clampSpeed s ∧ clampSpeed s ≤ 100 := by
  unfold clampSpeed
  omega

theorem clampSpeed_idem (s : ℤ) : clampSpeed (clampSpeed s) = clampSpeed s := by
  unfold clampSpeed
  omega

theorem clampSpeed_of_mem {s : ℤ} (h1 : -100 ≤ s) (h2 : s ≤ 100) :
    clampSpeed s = s := by
  unfold clampSpeed
  omega

theorem dutyOf_le (s : ℤ) (h : s.natAbs ≤ 100) : dutyOf s ≤ 65535 := by
  unfold dutyOf max_speed
  calc s.natAbs * 65535 / 100 ≤ 100 * 65535 / 100 :=
        Nat.div_le_div_right (Nat.mul_le_mul_right _ h)
    _ = 65535 := by norm_num

theorem set_motor_eq (s : ℤ) :
    set_motor s =
      if clampSpeed s > 0 then (dutyOf (clampSpeed s), 0)
      else if clampSpeed s < 0 then (0, dutyOf (clampSpeed s))
      else (0, 0) := rfl

theorem set_motor_fst_eq_zero_or_snd_eq_zero (s : ℤ) :
    (set_motor s).1 = 0 ∨ (set_motor s).2 = 0 := by
  rw [set_motor_eq]
  split
  · exact Or.inr rfl
  · split
    · exact Or.inl rfl
    · exact Or.inl rfl

theorem set_motor_le (s : ℤ) :
    (set_motor s).1 ≤ 65535 ∧ (set_motor s).2 ≤ 65535 := by
  have hmem := clampSpeed_mem s
  have hd : dutyOf (clampSpeed s) ≤ 65535 := by
    apply dutyOf_le
    omega
  rw [set_motor_eq]
  split
  · exact ⟨hd, Nat.zero_le _⟩
  · split
    · exact ⟨Nat.zero_le _, hd⟩
    · exact ⟨Nat.zero_le _, Nat.zero_le _⟩

theorem pyTrunc_intCast (n : ℤ) : pyTrunc (n : ℚ) = n := by
  unfold pyTrunc
  split
  · exact Int.floor_intCast n
  · exact Int.ceil_intCast n

theorem pyTrunc_neg (q : ℚ) : pyTrunc (-q) = -pyTrunc q := by
  unfold pyTrunc
  rcases lt_trichotomy q 0 with h | h | h
  · rw [if_pos (by linarith), if_neg (not_le.mpr h), Int.floor_neg]
  · subst h
    simp
  · rw [if_neg (by simpa using h), if_pos h.le, Int.ceil_neg]

theorem pyTrunc_neg_mul (s : ℤ) (r : ℚ) :
    pyTrunc (((-s : ℤ) : ℚ) * r) = -pyTrunc ((s : ℚ) * r) := by
  rw [show (((-s : ℤ) : ℚ) * r) = -((s : ℚ) * r) by push_cast; ring, pyTrunc_neg]

theorem move_outputsSafe (st : RobotState) (l r : ℤ) :
    outputsSafe (move st l r) :=
  ⟨(set_motor_le l).1, (set_motor_le l).2, (set_motor_le r).1, (set_motor_le r).2,
   set_motor_fst_eq_zero_or_snd_eq_zero l, set_motor_fst_eq_zero_or_snd_eq_zero r⟩

/- ------------------------------------------------------------------ -/
/- Claim theorems -/

/-- C1: for every integer input `s` (not required to be pre-clamped),
`set_motor` first clamps `s` to `[-100, 100]`, computes the duty from the
clamped value, and routes: clamped speed `> 0` puts the duty on the
forward line and 0 on the reverse line; `< 0` the other way round; `= 0`
zeroes both.  No input is rejected: `set_motor` is total on ℤ and agrees
with itself on the clamped input. -/
theorem set_motor_clamps_then_routes (s : ℤ) :
    (clampSpeed s > 0 → set_motor s = (dutyOf (clampSpeed s), 0)) ∧
    (clampSpeed s < 0 → set_motor s = (0, dutyOf (clampSpeed s))) ∧
    (clampSpeed s = 0 → set_motor s = (0, 0)) ∧
    set_motor s = set_motor (clampSpeed s) := by
  refine ⟨fun h => ?_, fun h => ?_, fun h => ?_, ?_⟩
  · rw [set_motor_eq, if_pos h]
  · rw [set_motor_eq, if_neg (by omega), if_pos h]
  · rw [set_motor_eq, if_neg (by omega), if_neg (by omega)]
  · rw [set_motor_eq s, set_motor_eq (clampSpeed s), clampSpeed_idem]

/-- Witness for C1 at the out-of-range input 150 (clamped to 100) and at
the negative input -7. -/
theorem set_motor_clamps_then_routes_witness :
    (clampSpeed 150 > 0 ∧ set_motor 150 = (dutyOf (clampSpeed 150), 0)) ∧
    (clampSpeed (-7) < 0 ∧ set_motor (-7) = (0, dutyOf (clampSpeed (-7)))) :=
  ⟨⟨by decide, (set_motor_clamps_then_routes 150).1 (by decide)⟩,
   ⟨by decide, (set_motor_clamps_then_routes (-7)).2.1 (by decide)⟩⟩

/-- C2: after every `move` (hence after every gait call, each of which is
a `move` application), at most one of each motor's forward/reverse lines
is non-zero; the resulting state is independent of the prior state, since
both lines of both motors are written unconditionally; and
`move(80,80)` immediately followed by `move(-20,0)` leaves exactly the
state of the single command `(-20, 0)`: left reverse at duty 13107
(speed -20) and everything else 0. -/
theorem move_exclusive_and_overwrites (st st2 : RobotState) (l r : ℤ) :
    ((move st l r).left_fwd = 0 ∨ (move st l r).left_rev = 0) ∧
    ((move st l r).right_fwd = 0 ∨ (move st l r).right_rev = 0) ∧
    move st l r = move st2 l r ∧
    move (move st 80 80) (-20) 0 =
      { left_fwd := 0, left_rev := 13107, right_fwd := 0, right_rev := 0 } :=
  ⟨set_motor_fst_eq_zero_or_snd_eq_zero l,
   set_motor_fst_eq_zero_or_snd_eq_zero r,
   rfl,
   rfl⟩

/-- C3: for every `s` in `[-100, 100]` the duty written by `set_motor`
(the sum of the two written lines, of which at most one is non-zero)
equals `⌊|s| * 65535 / 100⌋`; both written values lie in `[0, 65535]`;
and `dutyOf 0 = 0`, `dutyOf 100 = 65535`, `dutyOf (-100) = 65535`. -/
theorem set_motor_duty_formula (s : ℤ) (h1 : -100 ≤ s) (h2 : s ≤ 100) :
    (set_motor s).1 + (set_motor s).2 = s.natAbs * 65535 / 100 ∧
    (set_motor s).1 ≤ 65535 ∧ (set_motor s).2 ≤ 65535 ∧
    dutyOf 0 = 0 ∧ dutyOf 100 = 65535 ∧ dutyOf (-100) = 65535 := by
  have hc : clampSpeed s = s := clampSpeed_of_mem h1 h2
  refine ⟨?_, (set_motor_le s).1, (set_motor_le s).2, by decide, by decide, by decide⟩
  rw [set_motor_eq, hc]
  rcases lt_trichotomy s 0 with h | h | h
  · rw [if_neg (by omega), if_pos h]
    simp [dutyOf, max_speed]
  · subst h
    simp [dutyOf]
  · rw [if_pos h]
    simp [dutyOf, max_speed]

/-- Witness for C3 at the in-range input -73. -/
theorem set_motor_duty_formula_witness :
    -100 ≤ (-73 : ℤ) ∧ (-73 : ℤ) ≤ 100 ∧
    (set_motor (-73)).1 + (set_motor (-73)).2 = (-73 : ℤ).natAbs * 65535 / 100 :=
  ⟨by decide, by decide, (set_motor_duty_formula (-73) (by decide) (by decide)).1⟩

/-- C4: the front-drive gait formulas.  For every speed `s` and ratio
`r`: `forward s` commands `(s, s)`, `backward s` commands `(-s, -s)`,
`spin_left s` commands `(-s, s)`, `spin_right s` commands `(s, -s)`,
`arc_left s r` commands `(trunc (s*r), s)`, `arc_right s r` commands
`(s, trunc (s*r))`; in particular `forward 60 = move 60 60`,
`spin_left 50 = move (-50) 50`, `arc_left 60 0.5 = move 30 60` and
`arc_right 60 0.3 = move 60 18`. -/
theorem front_gait_formulas (st : RobotState) (s : ℤ) (r : ℚ) :
    FrontDrive.forward st s = move st s s ∧
    FrontDrive.backward st s = move st (-s) (-s) ∧
    FrontDrive.spin_left st s = move st (-s) s ∧
    FrontDrive.spin_right st s = move st s (-s) ∧
    FrontDrive.arc_left st s r = move st (pyTrunc ((s : ℚ) * r)) s ∧
    FrontDrive.arc_right st s r = move st s (pyTrunc ((s : ℚ) * r)) ∧
    FrontDrive.forward st 60 = move st 60 60 ∧
    FrontDrive.spin_left st 50 = move st (-50) 50 ∧
    FrontDrive.arc_left st 60 (1/2) = move st 30 60 ∧
    FrontDrive.arc_right st 60 (3/10) = move st 60 18 := by
  refine ⟨rfl, rfl, rfl, rfl, rfl, rfl, rfl, rfl, ?_, ?_⟩
  · simp only [FrontDrive.arc_left]
    rw [show (((60 : ℤ) : ℚ) * (1/2)) = ((30 : ℤ) : ℚ) by norm_num, pyTrunc_intCast]
  · simp only [FrontDrive.arc_right]
    rw [show (((60 : ℤ) : ℚ) * (3/10)) = ((18 : ℤ) : ℚ) by norm_num, pyTrunc_intCast]

/-- C5: `stop` drives all four motor output lines to duty 0 regardless of
the prior state (it writes the zeros directly, without the
clamp/sign/duty path of `set_motor`). -/
theorem stop_zeroes_all_outputs (st st2 : RobotState) :
    stop st = { left_fwd := 0, left_rev := 0, right_fwd := 0, right_rev := 0 } ∧
    stop st = stop st2 :=
  ⟨rfl, rfl⟩

/-- C6: construction ends with every motor output at duty 0, whatever
duty state `hw` the hardware lines were in beforehand, so no uncommanded
startup motion is possible. -/
theorem construct_leaves_stopped (hw : RobotState) :
    construct hw = { left_fwd := 0, left_rev := 0, right_fwd := 0, right_rev := 0 } :=
  rfl

/-- C7: the rear-drive reverse-turn gaits command exactly the negation of
their forward counterparts' per-wheel speeds: `turn_left_reverse s`
commands `(0, -s)` (negation of `turn_left_forward`'s `(0, s)`),
`turn_right_reverse s` commands `(-s, 0)`, `arc_left_reverse s r`
commands `(-trunc (s*r), -s)`, `arc_right_reverse s r` commands
`(-s, -trunc (s*r))`; in particular `arc_left_reverse 60 0.3 =
move (-18) (-60)`.  (These four gaits are defined only in the rear-drive
module; the front-drive module above has no reverse-turn gaits.) -/
theorem rear_reverse_gaits_negate (st : RobotState) (s : ℤ) (r : ℚ) :
    RearDrive.turn_left_reverse st s = move st 0 (-s) ∧
    RearDrive.turn_right_reverse st s = move st (-s) 0 ∧
    RearDrive.arc_left_reverse st s r = move st (-pyTrunc ((s : ℚ) * r)) (-s) ∧
    RearDrive.arc_right_reverse st s r = move st (-s) (-pyTrunc ((s : ℚ) * r)) ∧
    RearDrive.arc_left_reverse st 60 (3/10) = move st (-18) (-60) := by
  refine ⟨rfl, rfl, ?_, ?_, ?_⟩
  · simp only [RearDrive.arc_left_reverse]
    rw [pyTrunc_neg_mul]
  · simp only [RearDrive.arc_right_reverse]
    rw [pyTrunc_neg_mul]
  · simp only [RearDrive.arc_left_reverse]
    rw [show (((-60 : ℤ) : ℚ) * (3/10)) = ((-18 : ℤ) : ℚ) by push_cast; norm_num,
      pyTrunc_intCast]

/-- C8: for every speed magnitude `s` in `[0, 100]` and every rational
ratio `r` whatsoever (including `r > 1` and `r < 0` — the ratio is never
clamped by the arc gaits), every arc gait of both configurations leaves
all four PWM lines with a duty in `[0, 65535]` and at most one energized
line per motor: the clamp inside `set_motor` is a sufficient sole safety
net for the unclamped ratio-scaled intermediate speed. -/
theorem arc_unclamped_ratio_safe (st : RobotState) (s : ℤ)
    (h1 : 0 ≤ s) (h2 : s ≤ 100) (r : ℚ) :
    outputsSafe (FrontDrive.arc_left st s r) ∧
    outputsSafe (FrontDrive.arc_right st s r) ∧
    outputsSafe (RearDrive.arc_left st s r) ∧
    outputsSafe (RearDrive.arc_right st s r) ∧
    outputsSafe (RearDrive.arc_left_reverse st s r) ∧
    outputsSafe (RearDrive.arc_right_reverse st s r) :=
  ⟨move_outputsSafe st (pyTrunc ((s : ℚ) * r)) s,
   move_outputsSafe st s (pyTrunc ((s : ℚ) * r)),
   move_outputsSafe st (pyTrunc ((s : ℚ) * r)) s,
   move_outputsSafe st s (pyTrunc ((s : ℚ) * r)),
   move_outputsSafe st (pyTrunc (((-s : ℤ) : ℚ) * r)) (-s),
   move_outputsSafe st (-s) (pyTrunc (((-s : ℤ) : ℚ) * r))⟩

/-- Witness for C8 at speed 60 and the out-of-range ratio 2. -/
theorem arc_unclamped_ratio_safe_witness :
    0 ≤ (60 : ℤ) ∧ (60 : ℤ) ≤ 100 ∧
    outputsSafe (FrontDrive.arc_left ⟨1, 2, 3, 4⟩ 60 2) :=
  ⟨by decide, by decide,
   (arc_unclamped_ratio_safe ⟨1, 2, 3, 4⟩ 60 (by decide) (by decide) 2).1⟩

/-- C9: in the front-drive configuration `pivot_left` commands exactly
the same per-wheel speeds as `turn_left` (namely `move 0 s`) and
`pivot_right` exactly the same as `turn_right` (namely `move s 0`): the
pivot gaits are pure aliases of the turn gaits. -/
theorem pivot_aliases_turn (st : RobotState) (s : ℤ) :
    FrontDrive.pivot_left st s = FrontDrive.turn_left st s ∧
    FrontDrive.pivot_right st s = FrontDrive.turn_right st s ∧
    FrontDrive.pivot_left st s = move st 0 s ∧
    FrontDrive.pivot_right st s = move st s 0 :=
  ⟨rfl, rfl, rfl, rfl⟩

/-- C10: every gait of both configurations, called with no arguments,
behaves exactly as if called with speed 50 (and ratio 0.5 for arcs), and
in particular `forward ()` commands `move 50 50` and `arc_left ()`
commands `move 25 50`. -/
theorem gait_defaults (st : RobotState) :
    FrontDrive.forward st = FrontDrive.forward st 50 ∧
    FrontDrive.forward st = move st 50 50 ∧
    FrontDrive.backward st = move st (-50) (-50) ∧
    FrontDrive.turn_left st = move st 0 50 ∧
    FrontDrive.turn_right st = move st 50 0 ∧
    FrontDrive.spin_left st = move st (-50) 50 ∧
    FrontDrive.spin_right st = move st 50 (-50) ∧
    FrontDrive.arc_left st = FrontDrive.arc_left st 50 (1/2) ∧
    FrontDrive.arc_left st = move st 25 50 ∧
    FrontDrive.arc_right st = move st 50 25 ∧
    FrontDrive.pivot_left st = move st 0 50 ∧
    FrontDrive.pivot_right st = move st 50 0 ∧
    RearDrive.forward st = move st 50 50 ∧
    RearDrive.backward st = move st (-50) (-50) ∧
    RearDrive.turn_left_forward st = move st 0 50 ∧
    RearDrive.turn_right_forward st = move st 50 0 ∧
    RearDrive.turn_left_reverse st = move st 0 (-50) ∧
    RearDrive.turn_right_reverse st = move st (-50) 0 ∧
    RearDrive.spin_left st = move st (-50) 50 ∧
    RearDrive.spin_right st = move st 50 (-50) ∧
    RearDrive.arc_left st = move st 25 50 ∧
    RearDrive.arc_right st = move st 50 25 ∧
    RearDrive.arc_left_reverse st = move st (-25) (-50) ∧
    RearDrive.arc_right_reverse st = move st (-50) (-25) := by
  have h25 : pyTrunc (((50 : ℤ) : ℚ) * (1/2)) = 25 := by
    rw [show (((50 : ℤ) : ℚ) * (1/2)) = ((25 : ℤ) : ℚ) by norm_num, pyTrunc_intCast]
  have hm25 : pyTrunc (((-50 : ℤ) : ℚ) * (1/2)) = -25 := by
    rw [show (((-50 : ℤ) : ℚ) * (1/2)) = ((-25 : ℤ) : ℚ) by push_cast; norm_num,
      pyTrunc_intCast]
  refine ⟨rfl, rfl, rfl, rfl, rfl, rfl, rfl, rfl, ?_, ?_, rfl, rfl,
    rfl, rfl, rfl, rfl, rfl, rfl, rfl, rfl, ?_, ?_, ?_, ?_⟩
  · simp only [FrontDrive.arc_left]
    rw [h25]
  · simp only [FrontDrive.arc_right]
    rw [h25]
  · simp only [RearDrive.arc_left]
    rw [h25]
  · simp only [RearDrive.arc_right]
    rw [h25]
  · simp only [RearDrive.arc_left_reverse]
    rw [hm25]
  · simp only [RearDrive.arc_right_reverse]
    rw [hm25]

end PicoRobot
